import Mathlib

/-!
Verification development for the vscode-jupyter-launcher extension.

The definitions below are a shallow embedding of the TypeScript sources:
  * src/jupyterLauncher.ts    — configuration wizard and launch-argument builder
  * src/jupyterIntegration.ts — server registry, persistence and reconciliation
    (the repository holds two historical variants of this module; both are
    embedded where a claim refers to them)

Modelling conventions:
  * JS strings are Lean `String`; JS string truthiness is `s ≠ ""`.
  * `String.prototype.trim` and `String.prototype.startsWith` are modelled by
    the structurally recursive `jsTrim` and `jsStartsWith` on the character
    list of the string, so that they evaluate inside the kernel.
  * JS `string | undefined` is `Option String`; truthiness is `jsTruthy`.
  * Machine integers (ports, pids) are `Nat`; none of the embedded code
    overflows or relies on wrap-around.
  * `Date.now().toString()` is modelled by `Nat.repr now` for a caller
    supplied clock value `now`, and the probed TCP port by a caller supplied
    `port` value, since both are environment inputs of `getLaunchArgs`.
  * `generateHashedPassword` draws fresh randomness (a salt) on each call;
    its two results are passed in as the inputs `hashNB` and `hashSA`.
-/

/-- JS `String.prototype.trim`: strip whitespace from both ends. -/
def jsTrim (s : String) : String :=
  String.mk (((s.data.dropWhile Char.isWhitespace).reverse.dropWhile
    Char.isWhitespace).reverse)

/-- JS `String.prototype.startsWith`. -/
def jsStartsWith (s pre : String) : Bool :=
  pre.data.isPrefixOf s.data

/-- JS truthiness of a `string | undefined` value: defined and non-empty. -/
def jsTruthy : Option String → Bool
  | some s => s != ""
  | none => false

/-- The two server kinds of `JupyterType` in jupyterLauncher.ts. -/
inductive JupyterType where
  | notebook
  | lab
deriving DecidableEq

/-- The literal string of a `JupyterType` value. -/
def JupyterType.asString : JupyterType → String
  | JupyterType.notebook => "Jupyter Notebook"
  | JupyterType.lab => "Jupyter Lab"

/-- The mutable `token` record of `getLaunchArgs` (jupyterLauncher.ts:177-181):
`{ value, isRandom, isEmpty }`.  Mode `Specific` is represented, as in the
code, by `isRandom = false ∧ isEmpty = false`. -/
structure TokenRec where
  value : String
  isRandom : Bool
  isEmpty : Bool
deriving DecidableEq

/-- The local state of `getLaunchArgs` once the quick-pick phase has finished
(jupyterLauncher.ts:166-182 and 400-423): everything the argument builder at
lines 439-476 reads. -/
structure LaunchSettings where
  type : JupyterType
  shouldOpenBrowser : Bool
  cors : Bool
  token : TokenRec
  password : String
  customCwd : Option String
  useCustomWorkingDirectory : Bool
  cwd : String
  registerWithJupyterExtension : Bool
  jupyterExtensionWorkingDirectory : Option String
deriving DecidableEq

/-- Token materialization, jupyterLauncher.ts:431-437.  `Random` tokens use the
wall clock (`Date.now().toString()`, modelled by the input `now`); `Empty`
yields the empty string; otherwise a blank-after-trim value throws
`"Token cannot be empty"` (the spec's `InvalidToken`). -/
def resolveToken (now : Nat) (t : TokenRec) : Except String TokenRec :=
  if t.isRandom then Except.ok { t with value := Nat.repr now }
  else if t.isEmpty then Except.ok { t with value := "" }
  else if jsTrim t.value = "" then Except.error "Token cannot be empty"
  else Except.ok t

/-- The `shellArgs` construction of jupyterLauncher.ts:439-476, with the same
sequence of pushes.  `tokenValue` is the resolved `token.value`; `hashNB` and
`hashSA` are the two `generateHashedPassword(password)` call results. -/
def buildShellArgs (c : LaunchSettings) (tokenValue : String)
    (hashNB hashSA : String) (port : Nat) : List String := Id.run do
  let mut shellArgs : List String :=
    ["-m", "jupyter", if c.type = JupyterType.lab then "lab" else "notebook"]
  if !c.shouldOpenBrowser then
    shellArgs := shellArgs ++ ["--no-browser"]
  if c.cors then
    shellArgs := shellArgs ++ ["--NotebookApp.allow_origin"]
    shellArgs := shellArgs ++ ["*"]
    shellArgs := shellArgs ++ ["--ServerApp.allow_origin"]
    shellArgs := shellArgs ++ ["*"]
  shellArgs := shellArgs ++ ["--NotebookApp.token"]
  shellArgs := shellArgs ++ [jsTrim tokenValue]
  shellArgs := shellArgs ++ ["--ServerApp.token"]
  shellArgs := shellArgs ++ [jsTrim tokenValue]
  if (jsTrim c.password).length ≠ 0 then
    shellArgs := shellArgs ++ ["--NotebookApp.password"]
    shellArgs := shellArgs ++ [hashNB]
    shellArgs := shellArgs ++ ["--ServerApp.password"]
    shellArgs := shellArgs ++ [hashSA]
  else
    shellArgs := shellArgs ++ ["--NotebookApp.password"]
    shellArgs := shellArgs ++ [""]
    shellArgs := shellArgs ++ ["--ServerApp.password"]
    shellArgs := shellArgs ++ [""]
  if jsTruthy c.customCwd && c.useCustomWorkingDirectory then
    shellArgs := shellArgs ++ ["--notebook-dir"]
    shellArgs := shellArgs ++ [c.customCwd.getD ""]
  else if c.cwd ≠ "" then
    shellArgs := shellArgs ++ ["--notebook-dir"]
    shellArgs := shellArgs ++ [c.cwd]
  shellArgs := shellArgs ++ ["--port"]
  shellArgs := shellArgs ++ [Nat.repr port]
  return shellArgs

/-- The record returned by `getLaunchArgs` on success
(jupyterLauncher.ts:478-487). -/
structure LaunchInfo where
  shellArgs : List String
  token : String
  port : Nat
  password : String
  cwd : String
  registerWithJupyterExtension : Bool
  jupyterExtensionWorkingDirectory : Option String
deriving DecidableEq

/-- The tail of `getLaunchArgs` after the interactive phase
(jupyterLauncher.ts:424-487): resolve the token, build the argument vector and
return the launch parameters.  The probed `port` and the clock `now` are
inputs. -/
def getLaunchArgsResult (c : LaunchSettings) (now port : Nat)
    (hashNB hashSA : String) : Except String LaunchInfo :=
  match resolveToken now c.token with
  | Except.error e => Except.error e
  | Except.ok t =>
      Except.ok
        { shellArgs := buildShellArgs c t.value hashNB hashSA port
          token := t.value
          port := port
          password := c.password
          cwd := c.cwd
          registerWithJupyterExtension := c.registerWithJupyterExtension
          jupyterExtensionWorkingDirectory := c.jupyterExtensionWorkingDirectory }

/-- Closed form of `buildShellArgs`: the push sequence equals a fixed
concatenation of conditional segments. -/
theorem buildShellArgs_eq (c : LaunchSettings) (v hNB hSA : String) (port : Nat) :
    buildShellArgs c v hNB hSA port =
      ["-m", "jupyter", if c.type = JupyterType.lab then "lab" else "notebook"]
        ++ (if c.shouldOpenBrowser then [] else ["--no-browser"])
        ++ (if c.cors then
              ["--NotebookApp.allow_origin", "*", "--ServerApp.allow_origin", "*"]
            else [])
        ++ ["--NotebookApp.token", jsTrim v, "--ServerApp.token", jsTrim v]
        ++ (if (jsTrim c.password).length ≠ 0 then
              ["--NotebookApp.password", hNB, "--ServerApp.password", hSA]
            else ["--NotebookApp.password", "", "--ServerApp.password", ""])
        ++ (if jsTruthy c.customCwd && c.useCustomWorkingDirectory then
              ["--notebook-dir", c.customCwd.getD ""]
            else if c.cwd ≠ "" then ["--notebook-dir", c.cwd] else [])
        ++ ["--port", Nat.repr port] := by
  unfold buildShellArgs
  cases hob : c.shouldOpenBrowser <;>
    cases hco : c.cors <;>
      cases hcu : jsTruthy c.customCwd && c.useCustomWorkingDirectory <;>
        by_cases hpw : (jsTrim c.password).length ≠ 0 <;>
          by_cases hcwd : c.cwd ≠ "" <;>
            simp [Id.run, hob, hco, hcu, hpw, hcwd]

/-- Claim C1: for every accepted launch configuration the built argument
vector has the fixed order — the `-m jupyter` module prefix followed by the
server kind subcommand (`lab` or `notebook`), then `--no-browser` exactly when
open-in-browser was not chosen, then the CORS flag pair for both flag-name
generations (each with value `*`) exactly when CORS is enabled, then both
generations of the token flag (always), then both generations of the password
flag (always, with empty-string value when no password was set), then the
working-directory flag, and finally the port flag with the probed port as the
last two elements.  Accepted configurations always have a non-empty `cwd`
(`workspaceFolder ?? os.tmpdir()`), which the hypothesis records. -/
theorem c1_shellArgs_fixed_order (c : LaunchSettings) (v hNB hSA : String)
    (port : Nat) (hcwd : c.cwd ≠ "") :
    buildShellArgs c v hNB hSA port =
      ["-m", "jupyter", if c.type = JupyterType.lab then "lab" else "notebook"]
        ++ (if c.shouldOpenBrowser then [] else ["--no-browser"])
        ++ (if c.cors then
              ["--NotebookApp.allow_origin", "*", "--ServerApp.allow_origin", "*"]
            else [])
        ++ ["--NotebookApp.token", jsTrim v, "--ServerApp.token", jsTrim v]
        ++ (if (jsTrim c.password).length ≠ 0 then
              ["--NotebookApp.password", hNB, "--ServerApp.password", hSA]
            else ["--NotebookApp.password", "", "--ServerApp.password", ""])
        ++ ["--notebook-dir",
            if jsTruthy c.customCwd && c.useCustomWorkingDirectory then
              c.customCwd.getD ""
            else c.cwd]
        ++ ["--port", Nat.repr port] := by
  rw [buildShellArgs_eq]
  cases hcu : jsTruthy c.customCwd && c.useCustomWorkingDirectory <;>
    simp [hcu, hcwd]

/-- Witness for C1 at a concrete configuration. -/
theorem c1_shellArgs_fixed_order_witness :
    buildShellArgs
        { type := JupyterType.lab
          shouldOpenBrowser := false
          cors := true
          token := { value := "tok", isRandom := false, isEmpty := false }
          password := ""
          customCwd := none
          useCustomWorkingDirectory := false
          cwd := "/ws"
          registerWithJupyterExtension := true
          jupyterExtensionWorkingDirectory := none }
        "tok" "h1" "h2" 8888 =
      ["-m", "jupyter", "lab", "--no-browser",
       "--NotebookApp.allow_origin", "*", "--ServerApp.allow_origin", "*",
       "--NotebookApp.token", "tok", "--ServerApp.token", "tok",
       "--NotebookApp.password", "", "--ServerApp.password", "",
       "--notebook-dir", "/ws", "--port", "8888"] := by
  rw [c1_shellArgs_fixed_order _ _ _ _ _ (by decide)]
  decide

/-- Claim C4: if the token mode is `Specific` (neither random nor empty) and
the captured value is blank after trimming, `getLaunchArgs` fails with the
`InvalidToken` error (`"Token cannot be empty"`) and produces no launch
parameters at all; if the mode is `Random` or `Empty` the error cannot
occur. -/
theorem c4_blank_specific_token_rejected (c : LaunchSettings)
    (now port : Nat) (hNB hSA : String) :
    ((c.token.isRandom = false ∧ c.token.isEmpty = false ∧
        jsTrim c.token.value = "") →
      getLaunchArgsResult c now port hNB hSA =
        Except.error "Token cannot be empty")
    ∧ ((c.token.isRandom = true ∨ c.token.isEmpty = true) →
      ∃ info, getLaunchArgsResult c now port hNB hSA = Except.ok info) := by
  constructor
  · rintro ⟨h1, h2, h3⟩
    unfold getLaunchArgsResult resolveToken
    rw [h1, h2]
    simp [h3]
  · intro h
    unfold getLaunchArgsResult resolveToken
    by_cases hr : c.token.isRandom = true
    · simp [hr]
    · have hE : c.token.isEmpty = true := by
        rcases h with h | h
        · exact absurd h hr
        · exact h
      simp [hr, hE]

/-- Witness for C4: a blank `Specific` token is rejected and a `Random` token
is accepted, at concrete configurations. -/
theorem c4_blank_specific_token_rejected_witness :
    (getLaunchArgsResult
        { type := JupyterType.notebook
          shouldOpenBrowser := false
          cors := true
          token := { value := "  ", isRandom := false, isEmpty := false }
          password := ""
          customCwd := none
          useCustomWorkingDirectory := false
          cwd := "/ws"
          registerWithJupyterExtension := true
          jupyterExtensionWorkingDirectory := none }
        1700000000 8888 "h1" "h2" =
      Except.error "Token cannot be empty")
    ∧ (∃ info,
        getLaunchArgsResult
            { type := JupyterType.notebook
              shouldOpenBrowser := false
              cors := true
              token := { value := "", isRandom := true, isEmpty := false }
              password := ""
              customCwd := none
              useCustomWorkingDirectory := false
              cwd := "/ws"
              registerWithJupyterExtension := true
              jupyterExtensionWorkingDirectory := none }
            1700000000 8888 "h1" "h2" = Except.ok info) := by
  constructor
  · exact (c4_blank_specific_token_rejected _ _ _ _ _).1 (by decide)
  · exact (c4_blank_specific_token_rejected _ _ _ _ _).2 (Or.inl rfl)

/-!
Configuration wizard (jupyterLauncher.ts:184-423).

The quick pick holds the items of `items` (jupyterLauncher.ts:230-242); note
that `randomToken` is NOT part of `items` (line 232 is commented out), so the
initial selection contains no token-group item at all even though the token
record defaults to random.  The `onDidChangeSelection` handler
(lines 261-387) is embedded as the step function `wizardStep`.

The code uses the `ignoreNext` flag to swallow the selection-changed event
that VS Code fires when the handler itself assigns `quickPick.selectedItems`.
The UI is single threaded, so that synthetic event is always processed (it
merely copies `selectedItems` into `previousSelections` and clears the flag)
before any further user event; the embedding folds it into the same step, so
`ignoreNext` disappears from the state.

Item descriptions (pure UI text, never read by the control flow) are not
modelled.  Sub-prompt results (`capturePassword`, `captureToken`,
`captureCwd`) are user inputs and arrive as fields of the event;
`captureToken` returns `(jpToken || "").trim()` (line 539), which the step
function applies. -/

/-- The quick-pick items of jupyterLauncher.ts:185-226.  They are singleton
objects, so the source's reference comparisons (`i !== emptyToken`) are
equality on this type. -/
inductive Item where
  | passwordEnabled
  | randomToken
  | emptyToken
  | specificToken
  | corsEnabled
  | openInBrowser
  | cwdPrompt
  | localPathMapping
  | registerWithJupyterExt
deriving DecidableEq

/-- One user interaction: the new selection reported by
`onDidChangeSelection`, together with the reply the user would give to
whichever nested sub-prompt the handler opens (`none` = cancel). -/
structure WizardEvent where
  selection : List Item
  passwordResp : Option String
  tokenResp : Option String
  folderResp : Option String
deriving DecidableEq

/-- JS `Array.from(new Set(xs))`: deduplicate keeping first occurrences. -/
def jsDedup {α : Type} [DecidableEq α] (l : List α) : List α :=
  l.foldl (fun acc x => if x ∈ acc then acc else acc ++ [x]) []

/-- Wizard state: the handler's captured locals (jupyterLauncher.ts:166-182)
plus the quick-pick selection state (lines 250-259). -/
structure WizardState where
  token : TokenRec
  password : String
  customCwd : Option String
  useCustomWorkingDirectory : Bool
  jupyterExtensionWorkingDirectory : Option String
  previousSelections : List Item
  selectedItems : List Item
deriving DecidableEq

/-- `displayQuickPick` (jupyterLauncher.ts:255-260) followed by the synthetic
`ignoreNext` event: `previousSelections` is deduplicated and copied into
`selectedItems`. -/
def displayQuickPick (s : WizardState) : WizardState :=
  let p := jsDedup s.previousSelections
  { s with previousSelections := p, selectedItems := p }

/-- The `onDidChangeSelection` handler, jupyterLauncher.ts:261-387, as a step
function.  `e` is the new selection; branches appear in source order:
password (268), empty token (284), specific token (295), custom working
directory (317), local path mapping (343), working-directory deselection
(371), and the token-radio enforcement branch (380) which falls through to
line 386. -/
def wizardStep (cwd : String) (s : WizardState) (ev : WizardEvent) :
    WizardState :=
  if Item.passwordEnabled ∈ ev.selection ∧ Item.passwordEnabled ∉ s.previousSelections then
    if jsTruthy ev.passwordResp then
      displayQuickPick { s with
        password := ev.passwordResp.getD ""
        previousSelections := s.previousSelections ++ [Item.passwordEnabled] }
    else
      displayQuickPick { s with
        previousSelections :=
          s.previousSelections.filter (fun i => i != Item.passwordEnabled) }
  else if Item.emptyToken ∈ ev.selection ∧ Item.emptyToken ∉ s.previousSelections then
    displayQuickPick { s with
      token := { s.token with isRandom := false, isEmpty := true }
      previousSelections :=
        (s.previousSelections.filter
          (fun i => i != Item.randomToken && i != Item.specificToken))
          ++ [Item.emptyToken] }
  else if Item.specificToken ∈ ev.selection ∧ Item.specificToken ∉ s.previousSelections then
    if jsTrim (ev.tokenResp.getD "") ≠ "" then
      displayQuickPick { s with
        token := { value := jsTrim (ev.tokenResp.getD "")
                   isRandom := false
                   isEmpty := false }
        previousSelections :=
          (s.previousSelections.filter
            (fun i => i != Item.emptyToken && i != Item.randomToken))
            ++ [Item.specificToken] }
    else
      displayQuickPick { s with
        token := { s.token with isRandom := true, isEmpty := false }
        previousSelections :=
          (s.previousSelections.filter
            (fun i => i != Item.emptyToken && i != Item.specificToken))
            ++ [Item.randomToken] }
  else if Item.cwdPrompt ∈ ev.selection ∧ Item.cwdPrompt ∉ s.previousSelections then
    if jsTruthy ev.folderResp then
      displayQuickPick { s with
        customCwd := some (ev.folderResp.getD "")
        useCustomWorkingDirectory := true
        previousSelections := s.previousSelections ++ [Item.cwdPrompt] }
    else
      displayQuickPick { s with
        useCustomWorkingDirectory := true
        previousSelections :=
          s.previousSelections.filter (fun i => i != Item.cwdPrompt) }
  else if Item.localPathMapping ∈ ev.selection ∧ Item.localPathMapping ∉ s.previousSelections then
    if jsTruthy ev.folderResp then
      displayQuickPick { s with
        jupyterExtensionWorkingDirectory := some (ev.folderResp.getD "")
        previousSelections := s.previousSelections ++ [Item.localPathMapping] }
    else
      displayQuickPick { s with
        jupyterExtensionWorkingDirectory := some cwd
        previousSelections :=
          s.previousSelections.filter (fun i => i != Item.localPathMapping) }
  else if Item.cwdPrompt ∉ ev.selection ∧ Item.cwdPrompt ∈ s.previousSelections then
    displayQuickPick { s with
      useCustomWorkingDirectory := true
      previousSelections := ev.selection }
  else if Item.emptyToken ∉ ev.selection ∧ Item.randomToken ∉ ev.selection then
    { s with
      selectedItems := (ev.selection.filter
        (fun i => i != Item.emptyToken && i != Item.randomToken))
        ++ [Item.randomToken]
      previousSelections := (ev.selection.filter
        (fun i => i != Item.emptyToken && i != Item.randomToken))
        ++ [Item.randomToken] }
  else
    { s with selectedItems := ev.selection, previousSelections := ev.selection }

/-- The wizard's initial state (jupyterLauncher.ts:166-254): token defaults to
random, the initially picked items are `corsEnabled` (always), plus
`openInBrowser` and `registerWithJupyterExtensionPrompt` when the caller set
`displayOptionToIntegrateWithJupyter`. -/
def initWizard (displayIntegrate : Bool) (cwd : String) : WizardState :=
  let initSel : List Item :=
    if displayIntegrate then
      [Item.corsEnabled, Item.openInBrowser, Item.registerWithJupyterExt]
    else [Item.corsEnabled]
  { token := { value := "", isRandom := true, isEmpty := false }
    password := ""
    customCwd := none
    useCustomWorkingDirectory := false
    jupyterExtensionWorkingDirectory := some cwd
    previousSelections := initSel
    selectedItems := initSel }

/-- States of the wizard reachable from an initial state by selection
events. -/
inductive ReachableWizard (cwd : String) : WizardState → Prop where
  | init (displayIntegrate : Bool) :
      ReachableWizard cwd (initWizard displayIntegrate cwd)
  | next (s : WizardState) (ev : WizardEvent) :
      ReachableWizard cwd s → ReachableWizard cwd (wizardStep cwd s ev)

/-- Folding the JS `Set` deduplication accumulates exactly the members of the
accumulator and of the traversed list. -/
theorem mem_jsDedup_foldl {α : Type} [DecidableEq α] (l acc : List α) (x : α) :
    (x ∈ l.foldl (fun acc2 y => if y ∈ acc2 then acc2 else acc2 ++ [y]) acc) ↔
      x ∈ acc ∨ x ∈ l := by
  induction l generalizing acc with
  | nil => simp
  | cons y ys ih =>
    simp only [List.foldl_cons]
    by_cases hy : y ∈ acc
    · rw [if_pos hy, ih]
      simp only [List.mem_cons]
      constructor
      · tauto
      · rintro (h | h | h)
        · tauto
        · subst h; tauto
        · tauto
    · rw [if_neg hy, ih]
      simp [List.mem_cons, or_assoc]

/-- `jsDedup` preserves membership. -/
theorem jsDedup_mem {α : Type} [DecidableEq α] (l : List α) (x : α) :
    x ∈ jsDedup l ↔ x ∈ l := by
  unfold jsDedup
  rw [mem_jsDedup_foldl]
  simp

/-- Claim C2 is false on the code: starting from the default wizard state,
select `Empty Token` (the token group is now at `Empty`), then select
`Specific Token` and cancel the nested input box.  The claim says the token
group reverts to the prior choice `Empty`; the code instead resets it to
`Random` (jupyterLauncher.ts:309-315): afterwards `isRandom = true`,
`isEmpty = false` and `Empty Token` is no longer selected. -/
theorem c2_counterexample :
    ((wizardStep "/ws" (initWizard false "/ws")
        { selection := [Item.corsEnabled, Item.emptyToken]
          passwordResp := none, tokenResp := none, folderResp := none }).token.isEmpty
      = true)
    ∧ ((wizardStep "/ws"
          (wizardStep "/ws" (initWizard false "/ws")
            { selection := [Item.corsEnabled, Item.emptyToken]
              passwordResp := none, tokenResp := none, folderResp := none })
          { selection := [Item.corsEnabled, Item.emptyToken, Item.specificToken]
            passwordResp := none, tokenResp := none, folderResp := none }).token.isEmpty
        = false)
    ∧ ((wizardStep "/ws"
          (wizardStep "/ws" (initWizard false "/ws")
            { selection := [Item.corsEnabled, Item.emptyToken]
              passwordResp := none, tokenResp := none, folderResp := none })
          { selection := [Item.corsEnabled, Item.emptyToken, Item.specificToken]
            passwordResp := none, tokenResp := none, folderResp := none }).token.isRandom
        = true)
    ∧ Item.emptyToken ∉
        (wizardStep "/ws"
          (wizardStep "/ws" (initWizard false "/ws")
            { selection := [Item.corsEnabled, Item.emptyToken]
              passwordResp := none, tokenResp := none, folderResp := none })
          { selection := [Item.corsEnabled, Item.emptyToken, Item.specificToken]
            passwordResp := none, tokenResp := none, folderResp := none }).selectedItems := by
  decide

/-- Claim C2 (amended): cancelling the nested text-input sub-prompt after
selecting `Specific` resets the token group to the default `Random` —
regardless of the prior token choice (it is preserved only when the prior
choice was `Random`) — and never leaves the group empty: `Random` is selected
and `Empty`/`Specific` are not, while the captured token text is left
untouched. -/
theorem c2_specific_cancel_resets_to_random (cwd : String) (s : WizardState)
    (ev : WizardEvent)
    (hp : ¬(Item.passwordEnabled ∈ ev.selection ∧
        Item.passwordEnabled ∉ s.previousSelections))
    (he : ¬(Item.emptyToken ∈ ev.selection ∧
        Item.emptyToken ∉ s.previousSelections))
    (hs : Item.specificToken ∈ ev.selection ∧
        Item.specificToken ∉ s.previousSelections)
    (hcancel : jsTrim (ev.tokenResp.getD "") = "") :
    (wizardStep cwd s ev).token.isRandom = true
    ∧ (wizardStep cwd s ev).token.isEmpty = false
    ∧ (wizardStep cwd s ev).token.value = s.token.value
    ∧ Item.randomToken ∈ (wizardStep cwd s ev).selectedItems
    ∧ Item.emptyToken ∉ (wizardStep cwd s ev).selectedItems
    ∧ Item.specificToken ∉ (wizardStep cwd s ev).selectedItems := by
  unfold wizardStep
  rw [if_neg hp, if_neg he, if_pos hs, if_neg (fun h => h hcancel)]
  simp [displayQuickPick, jsDedup_mem, List.mem_filter]

/-- Witness for the amended C2 at a concrete state and event. -/
theorem c2_specific_cancel_resets_to_random_witness :
    (wizardStep "/ws" (initWizard false "/ws")
        { selection := [Item.corsEnabled, Item.specificToken]
          passwordResp := none, tokenResp := none, folderResp := none }).token.isRandom
      = true
    ∧ (wizardStep "/ws" (initWizard false "/ws")
        { selection := [Item.corsEnabled, Item.specificToken]
          passwordResp := none, tokenResp := none, folderResp := none }).token.isEmpty
      = false
    ∧ (wizardStep "/ws" (initWizard false "/ws")
        { selection := [Item.corsEnabled, Item.specificToken]
          passwordResp := none, tokenResp := none, folderResp := none }).token.value
      = (initWizard false "/ws").token.value
    ∧ Item.randomToken ∈
        (wizardStep "/ws" (initWizard false "/ws")
          { selection := [Item.corsEnabled, Item.specificToken]
            passwordResp := none, tokenResp := none, folderResp := none }).selectedItems
    ∧ Item.emptyToken ∉
        (wizardStep "/ws" (initWizard false "/ws")
          { selection := [Item.corsEnabled, Item.specificToken]
            passwordResp := none, tokenResp := none, folderResp := none }).selectedItems
    ∧ Item.specificToken ∉
        (wizardStep "/ws" (initWizard false "/ws")
          { selection := [Item.corsEnabled, Item.specificToken]
            passwordResp := none, tokenResp := none, folderResp := none }).selectedItems :=
  c2_specific_cancel_resets_to_random "/ws" (initWizard false "/ws")
    { selection := [Item.corsEnabled, Item.specificToken]
      passwordResp := none, tokenResp := none, folderResp := none }
    (by decide) (by decide) (by decide) (by decide)

/-- Number of token modes active in a token record: `Random` is `isRandom`,
`Empty` is `isEmpty`, `Specific` is (as in the resolution chain of
jupyterLauncher.ts:431-437) neither of the two flags. -/
def TokenRec.activeModeCount (t : TokenRec) : Nat :=
  (if t.isRandom then 1 else 0) + (if t.isEmpty then 1 else 0) +
    (if t.isRandom = false ∧ t.isEmpty = false then 1 else 0)

/-- A token record with not both flags set activates exactly one mode. -/
theorem activeModeCount_eq_one (t : TokenRec)
    (h : ¬(t.isRandom = true ∧ t.isEmpty = true)) :
    t.activeModeCount = 1 := by
  rcases t with ⟨v, r, e⟩
  cases r <;> cases e <;> simp_all [TokenRec.activeModeCount]

/-- No branch of the selection handler ever sets both token flags. -/
theorem wizardStep_token_consistent (cwd : String) (s : WizardState)
    (ev : WizardEvent)
    (h : ¬(s.token.isRandom = true ∧ s.token.isEmpty = true)) :
    ¬((wizardStep cwd s ev).token.isRandom = true ∧
      (wizardStep cwd s ev).token.isEmpty = true) := by
  unfold wizardStep
  split_ifs <;> simp_all [displayQuickPick]

/-- Every reachable wizard state keeps the two token flags consistent. -/
theorem reachable_token_consistent (cwd : String) (s : WizardState)
    (h : ReachableWizard cwd s) :
    ¬(s.token.isRandom = true ∧ s.token.isEmpty = true) := by
  induction h with
  | init di => simp [initWizard]
  | next s2 ev hs ih => exact wizardStep_token_consistent cwd s2 ev ih

/-- Claim C5 is false as stated: the initial wizard state is reachable (the
empty event sequence) and has no member of the token group
`{Random, Empty, Specific}` in its selection at all — `randomToken` is not in
the item list (jupyterLauncher.ts:232 is commented out), so zero, not exactly
one, token items are selected. -/
theorem c5_counterexample :
    ReachableWizard "/ws" (initWizard false "/ws")
    ∧ ((initWizard false "/ws").selectedItems.filter
        (fun i => i == Item.randomToken || i == Item.emptyToken ||
          i == Item.specificToken)).length = 0 :=
  ⟨ReachableWizard.init false, by decide⟩

set_option maxHeartbeats 1600000 in
/-- Claim C5 (amended): the "exactly one token mode" invariant holds for the
wizard's token record, not for the visible selection (which holds zero token
items initially): (1) at every reachable state the token record activates
exactly one mode of `{Random, Empty, Specific}`; (2) any selection event that
reaches the radio-enforcement branch (no sub-prompt item newly selected, no
working-directory deselection) and leaves neither `Empty` nor `Random`
selected re-adds the default `Random` to the selection; (3) the built
argument vector carries exactly one token mode in its token flags: each
flag-name generation occurs exactly once, and both carry the same single
token value. -/
theorem c5_token_group_exactly_one :
    (∀ cwd s, ReachableWizard cwd s → s.token.activeModeCount = 1)
    ∧ (∀ cwd s ev,
        ¬(Item.passwordEnabled ∈ ev.selection ∧
            Item.passwordEnabled ∉ s.previousSelections) →
        ¬(Item.emptyToken ∈ ev.selection ∧
            Item.emptyToken ∉ s.previousSelections) →
        ¬(Item.specificToken ∈ ev.selection ∧
            Item.specificToken ∉ s.previousSelections) →
        ¬(Item.cwdPrompt ∈ ev.selection ∧
            Item.cwdPrompt ∉ s.previousSelections) →
        ¬(Item.localPathMapping ∈ ev.selection ∧
            Item.localPathMapping ∉ s.previousSelections) →
        ¬(Item.cwdPrompt ∉ ev.selection ∧
            Item.cwdPrompt ∈ s.previousSelections) →
        Item.emptyToken ∉ ev.selection →
        Item.randomToken ∉ ev.selection →
        Item.randomToken ∈ (wizardStep cwd s ev).selectedItems)
    ∧ (∀ c v hNB hSA port, c.cwd ≠ "" →
        (∀ x ∈ [jsTrim v, hNB, hSA, "", c.customCwd.getD "", c.cwd,
            Nat.repr port],
          x ≠ "--NotebookApp.token" ∧ x ≠ "--ServerApp.token") →
        (buildShellArgs c v hNB hSA port).count "--NotebookApp.token" = 1
        ∧ (buildShellArgs c v hNB hSA port).count "--ServerApp.token" = 1
        ∧ ∃ l1 l2, buildShellArgs c v hNB hSA port =
            l1 ++ ["--NotebookApp.token", jsTrim v,
                   "--ServerApp.token", jsTrim v] ++ l2) := by
  refine ⟨?_, ?_, ?_⟩
  · intro cwd s h
    exact activeModeCount_eq_one _ (reachable_token_consistent cwd s h)
  · intro cwd s ev h1 h2 h3 h4 h5 h6 h7 h8
    unfold wizardStep
    rw [if_neg h1, if_neg h2, if_neg h3, if_neg h4, if_neg h5, if_neg h6,
      if_pos (And.intro h7 h8)]
    simp
  · intro c v hNB hSA port hcwd H
    obtain ⟨hv1, hv2⟩ := H (jsTrim v) (by simp)
    obtain ⟨hb1, hb2⟩ := H hNB (by simp)
    obtain ⟨hs1, hs2⟩ := H hSA (by simp)
    obtain ⟨he1, he2⟩ := H "" (by simp)
    obtain ⟨hc1, hc2⟩ := H (c.customCwd.getD "") (by simp)
    obtain ⟨hw1, hw2⟩ := H c.cwd (by simp)
    obtain ⟨hp1, hp2⟩ := H (Nat.repr port) (by simp)
    have hd1 : (if jsTruthy c.customCwd && c.useCustomWorkingDirectory then
        c.customCwd.getD "" else c.cwd) ≠ "--NotebookApp.token" := by
      split_ifs
      · exact hc1
      · exact hw1
    have hd2 : (if jsTruthy c.customCwd && c.useCustomWorkingDirectory then
        c.customCwd.getD "" else c.cwd) ≠ "--ServerApp.token" := by
      split_ifs
      · exact hc2
      · exact hw2
    rw [c1_shellArgs_fixed_order c v hNB hSA port hcwd]
    generalize hgv : jsTrim v = vv at hv1 hv2 ⊢
    generalize hgp : Nat.repr port = pv at hp1 hp2 ⊢
    generalize hgd : (if jsTruthy c.customCwd && c.useCustomWorkingDirectory
      then c.customCwd.getD "" else c.cwd) = dv at hd1 hd2 ⊢
    refine ⟨?_, ?_, ?_⟩
    · split_ifs <;>
        simp [List.count_append, List.count_cons, hv1, hb1, hs1, he1, hd1, hp1]
    · split_ifs <;>
        simp [List.count_append, List.count_cons, hv2, hb2, hs2, he2, hd2, hp2]
    · refine ⟨["-m", "jupyter",
          if c.type = JupyterType.lab then "lab" else "notebook"]
          ++ (if c.shouldOpenBrowser then [] else ["--no-browser"])
          ++ (if c.cors then
                ["--NotebookApp.allow_origin", "*",
                 "--ServerApp.allow_origin", "*"]
              else []),
        (if (jsTrim c.password).length ≠ 0 then
            ["--NotebookApp.password", hNB, "--ServerApp.password", hSA]
          else ["--NotebookApp.password", "", "--ServerApp.password", ""])
          ++ ["--notebook-dir", dv]
          ++ ["--port", pv], ?_⟩
      simp only [List.append_assoc, List.cons_append, List.nil_append]

/-- Witness for the amended C5: the three parts applied at concrete inputs. -/
theorem c5_token_group_exactly_one_witness :
    (initWizard false "/ws").token.activeModeCount = 1
    ∧ Item.randomToken ∈
        (wizardStep "/ws" (initWizard false "/ws")
          { selection := [], passwordResp := none, tokenResp := none,
            folderResp := none }).selectedItems
    ∧ ((buildShellArgs
          { type := JupyterType.notebook
            shouldOpenBrowser := false
            cors := true
            token := { value := "tok", isRandom := false, isEmpty := false }
            password := ""
            customCwd := none
            useCustomWorkingDirectory := false
            cwd := "/ws"
            registerWithJupyterExtension := true
            jupyterExtensionWorkingDirectory := none }
          "tok" "h1" "h2" 9000).count "--NotebookApp.token" = 1
        ∧ (buildShellArgs
            { type := JupyterType.notebook
              shouldOpenBrowser := false
              cors := true
              token := { value := "tok", isRandom := false, isEmpty := false }
              password := ""
              customCwd := none
              useCustomWorkingDirectory := false
              cwd := "/ws"
              registerWithJupyterExtension := true
              jupyterExtensionWorkingDirectory := none }
            "tok" "h1" "h2" 9000).count "--ServerApp.token" = 1
        ∧ ∃ l1 l2,
            buildShellArgs
                { type := JupyterType.notebook
                  shouldOpenBrowser := false
                  cors := true
                  token := { value := "tok", isRandom := false, isEmpty := false }
                  password := ""
                  customCwd := none
                  useCustomWorkingDirectory := false
                  cwd := "/ws"
                  registerWithJupyterExtension := true
                  jupyterExtensionWorkingDirectory := none }
                "tok" "h1" "h2" 9000 =
              l1 ++ ["--NotebookApp.token", jsTrim "tok",
                     "--ServerApp.token", jsTrim "tok"] ++ l2) :=
  ⟨c5_token_group_exactly_one.1 "/ws" (initWizard false "/ws")
      (ReachableWizard.init false),
   c5_token_group_exactly_one.2.1 "/ws" (initWizard false "/ws")
      { selection := [], passwordResp := none, tokenResp := none,
        folderResp := none }
      (by decide) (by decide) (by decide) (by decide) (by decide) (by decide)
      (by decide) (by decide),
   c5_token_group_exactly_one.2.2
      { type := JupyterType.notebook
        shouldOpenBrowser := false
        cors := true
        token := { value := "tok", isRandom := false, isEmpty := false }
        password := ""
        customCwd := none
        useCustomWorkingDirectory := false
        cwd := "/ws"
        registerWithJupyterExtension := true
        jupyterExtensionWorkingDirectory := none }
      "tok" "h1" "h2" 9000 (by decide) (by decide)⟩

/-!
Server registry, persistence and reconciliation
(src/unnamed/part_000, the variant of jupyterIntegration.ts with the
`onDidChangeServers` emitter; the structurally identical guard logic also
appears in src/jupyterIntegration.ts:50-149).

The source keys its `Map` by `server.pid.toString()`; `toString` on process
ids is injective, so the map is modelled as an association list keyed by the
pid itself.  JS `Map` iteration/insertion-order semantics are modelled by
association lists: `aset` overwrites in place or appends, `alookup` finds the
unique entry.

`dispose` closures (terminal disposal) are external side effects and carry no
registry-observable state; they are not modelled.  `Uri.parse`/`Uri.file` are
modelled as the identity on the URL/path string.
-/

/-- JS `Map.prototype.get`. -/
def alookup {α β : Type} [DecidableEq α] : List (α × β) → α → Option β
  | [], _ => none
  | (k2, v) :: rest, k => if k2 = k then some v else alookup rest k

/-- JS `Map.prototype.has`. -/
def ahas {α β : Type} [DecidableEq α] (m : List (α × β)) (k : α) : Bool :=
  (alookup m k).isSome

/-- JS `Map.prototype.set`: overwrite in place, else append. -/
def aset {α β : Type} [DecidableEq α] : List (α × β) → α → β → List (α × β)
  | [], k, v => [(k, v)]
  | (k2, v2) :: rest, k, v =>
      if k2 = k then (k, v) :: rest else (k2, v2) :: aset rest k v

/-- JS `Map.prototype.delete` (maps have unique keys; modelled as a filter). -/
def aerase {α β : Type} [DecidableEq α] (m : List (α × β)) (k : α) :
    List (α × β) :=
  m.filter (fun e => e.fst ≠ k)

/-- Lookup after `aset` at the written key. -/
theorem alookup_aset_self {α β : Type} [DecidableEq α] (m : List (α × β))
    (k : α) (v : β) : alookup (aset m k v) k = some v := by
  induction m with
  | nil => simp [aset, alookup]
  | cons e rest ih =>
    obtain ⟨k2, v2⟩ := e
    by_cases h : k2 = k
    · simp [aset, alookup, h]
    · simp [aset, alookup, h, ih]

/-- Lookup after `aset` at another key. -/
theorem alookup_aset_ne {α β : Type} [DecidableEq α] (m : List (α × β))
    (k k2 : α) (v : β) (h : k2 ≠ k) :
    alookup (aset m k v) k2 = alookup m k2 := by
  induction m with
  | nil => simp [aset, alookup, Ne.symm h]
  | cons e rest ih =>
    obtain ⟨k3, v3⟩ := e
    by_cases h3 : k3 = k
    · subst h3
      simp only [aset, if_pos rfl]
      simp [alookup, Ne.symm h]
    · simp only [aset, if_neg h3]
      by_cases h4 : k3 = k2
      · simp [alookup, h4]
      · simp [alookup, h4, ih]

/-- `aset` preserves `ahas`. -/
theorem ahas_aset {α β : Type} [DecidableEq α] (m : List (α × β))
    (k k2 : α) (v : β) (h : ahas m k2 = true) :
    ahas (aset m k v) k2 = true := by
  unfold ahas at h ⊢
  by_cases hk : k2 = k
  · subst hk
    rw [alookup_aset_self]
    rfl
  · rw [alookup_aset_ne m k k2 v hk]
    exact h

/-- A VS Code terminal as reconciliation sees it: its name and the pid
reported by `terminal.processId` (`none` when unavailable).  The source's
`terminalsByPid.get(pid) !== t` reference comparison is modelled by
structural inequality; when the two coincide structurally the re-insertion
is a no-op on the map either way. -/
structure Terminal where
  name : String
  processId : Option Nat
deriving DecidableEq

/-- The data of a `JupyterServer` record (jupyterLauncher.ts:20-32) minus its
`dispose` closure. -/
structure JupyterServerRec where
  shellArgs : List String
  token : String
  port : Nat
  password : String
  registerWithJupyterExtension : Bool
  pid : Nat
  type : JupyterType
  baseUrl : String
  cwd : String
  jupyterExtensionWorkingDirectory : Option String
deriving DecidableEq

/-- The `IJupyterServerUri` payload built by `addJupyterServer`
(part_000:152-161): connection information plus `label` and `pid`. -/
structure ServerUriRec where
  pid : Nat
  baseUrl : String
  token : String
  label : String
  mappedRemoteNotebookDir : Option String
deriving DecidableEq

/-- A disposable held in a registry entry: either the launched server record
or a terminal (restore replaces the disposables with the live terminal). -/
inductive DisposableRec where
  | server (info : JupyterServerRec)
  | terminal (t : Terminal)
deriving DecidableEq

/-- A registry entry `{ serverUri, server, disposables }` (part_000:29-36). -/
structure ServerEntry where
  serverUri : ServerUriRec
  server : JupyterServerRec
  disposables : List DisposableRec
deriving DecidableEq

/-- The module-level mutable state touched by the integration layer: the
`servers` map, the persisted `jupyterServers` memento list, the number of
`onDidChangeServers` firings and the output-channel warning lines. -/
structure IntegrationWorld where
  servers : List (Nat × ServerEntry)
  memento : List ServerEntry
  events : Nat
  warnings : List String
deriving DecidableEq

/-- The duplicate-add warning line of part_000:147-149. -/
def addWarningMsg (pid : Nat) : String :=
  "[Warning]: Jupyter server already started for this workspace with pid "
    ++ Nat.repr pid ++ "."

/-- `addJupyterServer` (part_000:141-172): a duplicate pid only logs a
warning; otherwise the entry is built, appended to the memento (with
disposables cleared, per `storeJupyterServers`, part_000:123-140), inserted
into the map, and the change event fires. -/
def addJupyterServer (w : IntegrationWorld) (server : JupyterServerRec) :
    IntegrationWorld :=
  if ahas w.servers server.pid then
    { w with warnings := w.warnings ++ [addWarningMsg server.pid] }
  else
    let jupyterServer : ServerUriRec :=
      { pid := server.pid
        baseUrl := server.baseUrl
        token := server.token
        label := server.type.asString ++ " " ++ server.baseUrl
        mappedRemoteNotebookDir :=
          match server.jupyterExtensionWorkingDirectory with
          | some d => if d = "" then none else some d
          | none => none }
    let details : ServerEntry :=
      { serverUri := jupyterServer
        server := server
        disposables := [DisposableRec.server server] }
    { servers := aset w.servers server.pid details
      memento := w.memento ++ [{ details with disposables := [] }]
      events := w.events + 1
      warnings := w.warnings }

/-- The terminal-inventory construction of `restoreJupyterServers`
(part_000:59-76): only terminals whose name starts with
"Jupyter Notebook at" or "Jupyter Lab at" and which report a pid are
indexed.  The source awaits the pids concurrently; completion order only
permutes insertions of distinct pids, which the map semantics make
order-insensitive, so the embedding folds in list order. -/
def considerTerminal (m : List (Nat × Terminal)) (t : Terminal) :
    List (Nat × Terminal) :=
  if ¬ jsStartsWith t.name "Jupyter Notebook at"
      ∧ ¬ jsStartsWith t.name "Jupyter Lab at" then m
  else
    match t.processId with
    | none => m
    | some pid => if alookup m pid ≠ some t then aset m pid t else m

/-- The `terminalsByPid` map (part_000:59-76). -/
def buildTerminalsByPid (terminals : List Terminal) : List (Nat × Terminal) :=
  terminals.foldl considerTerminal []

/-- One iteration of the reconciliation loop (part_000:84-120) over a
persisted record: skip when the record has no usable pid (JS truthiness:
`pid = 0` is falsy), when the pid is already registered, or when no live
Jupyter terminal reports that pid; otherwise rebuild the server record
(`urlPort` models `parseInt(new URL(baseUrl).port)`) and register it. -/
def restoreRecord (urlPort : String → Nat) (inv : List (Nat × Terminal))
    (svs : List (Nat × ServerEntry)) (record : ServerEntry) :
    List (Nat × ServerEntry) :=
  if record.serverUri.pid = 0 then svs
  else if ahas svs record.serverUri.pid then svs
  else
    match alookup inv record.serverUri.pid with
    | none => svs
    | some t =>
        aset svs record.serverUri.pid
          { record with
            server :=
              { cwd := ""
                password := ""
                pid := record.serverUri.pid
                port := urlPort record.serverUri.baseUrl
                registerWithJupyterExtension := true
                shellArgs := []
                type :=
                  if jsStartsWith record.serverUri.label "Jupyter Notebook"
                  then JupyterType.notebook
                  else JupyterType.lab
                baseUrl := record.serverUri.baseUrl
                token := record.serverUri.token
                jupyterExtensionWorkingDirectory :=
                  record.serverUri.mappedRemoteNotebookDir }
            disposables := [DisposableRec.terminal t] }

/-- `restoreJupyterServers` (part_000:55-122): index the live Jupyter
terminals, walk the persisted records, and fire the change event once
(unconditionally, part_000:121).  The memento itself is never rewritten. -/
def restoreJupyterServers (urlPort : String → Nat)
    (terminals : List Terminal) (w : IntegrationWorld) : IntegrationWorld :=
  { w with
    servers :=
      w.memento.foldl (restoreRecord urlPort (buildTerminalsByPid terminals))
        w.servers
    events := w.events + 1 }

/-- Claim C3: `add` with a pid already present in the registry is a no-op
apart from the warning line: the map, its size, the persisted store and the
event count are unchanged, no error is raised (the function is total), and
exactly the duplicate warning is appended to the log. -/
theorem c3_duplicate_add_noop (w : IntegrationWorld)
    (server : JupyterServerRec) (h : ahas w.servers server.pid = true) :
    (addJupyterServer w server).servers = w.servers
    ∧ (addJupyterServer w server).servers.length = w.servers.length
    ∧ (addJupyterServer w server).memento = w.memento
    ∧ (addJupyterServer w server).events = w.events
    ∧ (addJupyterServer w server).warnings
        = w.warnings ++ [addWarningMsg server.pid] := by
  unfold addJupyterServer
  rw [if_pos h]
  simp

/-- A concrete launched server for witnesses. -/
def sampleServer : JupyterServerRec :=
  { shellArgs := []
    token := "t"
    port := 8888
    password := ""
    registerWithJupyterExtension := true
    pid := 42
    type := JupyterType.notebook
    baseUrl := "http://localhost:8888/"
    cwd := "/ws"
    jupyterExtensionWorkingDirectory := none }

/-- A world that already contains `sampleServer`. -/
def sampleWorld : IntegrationWorld :=
  addJupyterServer { servers := [], memento := [], events := 0, warnings := [] }
    sampleServer

/-- Witness for C3: adding `sampleServer` to a world that already holds it
changes nothing but the warning log. -/
theorem c3_duplicate_add_noop_witness :
    (addJupyterServer sampleWorld sampleServer).servers = sampleWorld.servers
    ∧ (addJupyterServer sampleWorld sampleServer).servers.length
        = sampleWorld.servers.length
    ∧ (addJupyterServer sampleWorld sampleServer).memento = sampleWorld.memento
    ∧ (addJupyterServer sampleWorld sampleServer).events = sampleWorld.events
    ∧ (addJupyterServer sampleWorld sampleServer).warnings
        = sampleWorld.warnings ++ [addWarningMsg sampleServer.pid] :=
  c3_duplicate_add_noop sampleWorld sampleServer (by decide)

/-- Reconciling one record never touches keys whose pid has no live Jupyter
terminal. -/
theorem restoreRecord_lookup_of_dead (u : String → Nat)
    (inv : List (Nat × Terminal)) (svs : List (Nat × ServerEntry))
    (r : ServerEntry) (p : Nat) (hdead : alookup inv p = none) :
    alookup (restoreRecord u inv svs r) p = alookup svs p := by
  unfold restoreRecord
  by_cases h1 : r.serverUri.pid = 0
  · rw [if_pos h1]
  · rw [if_neg h1]
    by_cases h2 : ahas svs r.serverUri.pid = true
    · rw [if_pos h2]
    · rw [if_neg h2]
      cases hl : alookup inv r.serverUri.pid with
      | none => rfl
      | some t =>
        have hne : p ≠ r.serverUri.pid := by
          intro he
          rw [he, hl] at hdead
          cases hdead
        exact alookup_aset_ne _ _ _ _ hne

/-- The reconciliation fold never touches keys whose pid has no live Jupyter
terminal. -/
theorem restore_foldl_lookup_of_dead (u : String → Nat)
    (inv : List (Nat × Terminal)) (recs : List ServerEntry)
    (svs : List (Nat × ServerEntry)) (p : Nat)
    (hdead : alookup inv p = none) :
    alookup (recs.foldl (restoreRecord u inv) svs) p = alookup svs p := by
  induction recs generalizing svs with
  | nil => rfl
  | cons r rest ih =>
    rw [List.foldl_cons, ih, restoreRecord_lookup_of_dead u inv svs r p hdead]

/-- Reconciling one record preserves every key already in the map. -/
theorem ahas_restoreRecord_mono (u : String → Nat)
    (inv : List (Nat × Terminal)) (svs : List (Nat × ServerEntry))
    (r : ServerEntry) (p : Nat) (h : ahas svs p = true) :
    ahas (restoreRecord u inv svs r) p = true := by
  unfold restoreRecord
  by_cases h1 : r.serverUri.pid = 0
  · rw [if_pos h1]
    exact h
  · rw [if_neg h1]
    by_cases h2 : ahas svs r.serverUri.pid = true
    · rw [if_pos h2]
      exact h
    · rw [if_neg h2]
      cases hl : alookup inv r.serverUri.pid with
      | none => exact h
      | some t => exact ahas_aset _ _ _ _ h

/-- Reconciling one record never replaces the entry of a pid that is already
registered. -/
theorem restoreRecord_lookup_of_present (u : String → Nat)
    (inv : List (Nat × Terminal)) (svs : List (Nat × ServerEntry))
    (r : ServerEntry) (p : Nat) (h : ahas svs p = true) :
    alookup (restoreRecord u inv svs r) p = alookup svs p := by
  unfold restoreRecord
  by_cases h1 : r.serverUri.pid = 0
  · rw [if_pos h1]
  · rw [if_neg h1]
    by_cases h2 : ahas svs r.serverUri.pid = true
    · rw [if_pos h2]
    · rw [if_neg h2]
      cases hl : alookup inv r.serverUri.pid with
      | none => rfl
      | some t =>
        have hne : p ≠ r.serverUri.pid := by
          intro he
          rw [he] at h
          exact h2 h
        exact alookup_aset_ne _ _ _ _ hne

/-- The reconciliation fold never replaces entries of pids that were in the
map when it started. -/
theorem restore_foldl_lookup_of_present (u : String → Nat)
    (inv : List (Nat × Terminal)) (recs : List ServerEntry)
    (svs : List (Nat × ServerEntry)) (p : Nat) (h : ahas svs p = true) :
    alookup (recs.foldl (restoreRecord u inv) svs) p = alookup svs p := by
  induction recs generalizing svs with
  | nil => rfl
  | cons r rest ih =>
    rw [List.foldl_cons, ih _ (ahas_restoreRecord_mono u inv svs r p h),
      restoreRecord_lookup_of_present u inv svs r p h]

/-- A persisted record is settled in a map when reconciliation can do nothing
with it: falsy pid, pid already registered, or no live terminal. -/
def settledRecord (inv : List (Nat × Terminal))
    (svs : List (Nat × ServerEntry)) (r : ServerEntry) : Prop :=
  r.serverUri.pid = 0 ∨ ahas svs r.serverUri.pid = true
    ∨ alookup inv r.serverUri.pid = none

/-- Reconciling a settled record is the identity. -/
theorem restoreRecord_of_settled (u : String → Nat)
    (inv : List (Nat × Terminal)) (svs : List (Nat × ServerEntry))
    (r : ServerEntry) (h : settledRecord inv svs r) :
    restoreRecord u inv svs r = svs := by
  unfold restoreRecord
  rcases h with h | h | h
  · rw [if_pos h]
  · by_cases h1 : r.serverUri.pid = 0
    · rw [if_pos h1]
    · rw [if_neg h1, if_pos h]
  · by_cases h1 : r.serverUri.pid = 0
    · rw [if_pos h1]
    · rw [if_neg h1]
      by_cases h2 : ahas svs r.serverUri.pid = true
      · rw [if_pos h2]
      · rw [if_neg h2, h]

/-- Settledness is preserved by reconciling any other record. -/
theorem settledRecord_mono (u : String → Nat) (inv : List (Nat × Terminal))
    (svs : List (Nat × ServerEntry)) (r r2 : ServerEntry)
    (h : settledRecord inv svs r) :
    settledRecord inv (restoreRecord u inv svs r2) r := by
  rcases h with h | h | h
  · exact Or.inl h
  · exact Or.inr (Or.inl (ahas_restoreRecord_mono u inv svs r2 _ h))
  · exact Or.inr (Or.inr h)

/-- After reconciling a record, that record is settled. -/
theorem settledRecord_self (u : String → Nat) (inv : List (Nat × Terminal))
    (svs : List (Nat × ServerEntry)) (r : ServerEntry) :
    settledRecord inv (restoreRecord u inv svs r) r := by
  by_cases h1 : r.serverUri.pid = 0
  · exact Or.inl h1
  · by_cases h2 : ahas svs r.serverUri.pid = true
    · refine Or.inr (Or.inl ?_)
      unfold restoreRecord
      rw [if_neg h1, if_pos h2]
      exact h2
    · cases hl : alookup inv r.serverUri.pid with
      | none =>
        exact Or.inr (Or.inr hl)
      | some t =>
        refine Or.inr (Or.inl ?_)
        unfold restoreRecord
        rw [if_neg h1, if_neg h2, hl]
        simp [ahas, alookup_aset_self]

/-- Settledness is preserved by the whole reconciliation fold. -/
theorem settledRecord_foldl_mono (u : String → Nat)
    (inv : List (Nat × Terminal)) (recs : List ServerEntry)
    (svs : List (Nat × ServerEntry)) (r : ServerEntry)
    (h : settledRecord inv svs r) :
    settledRecord inv (recs.foldl (restoreRecord u inv) svs) r := by
  induction recs generalizing svs with
  | nil => exact h
  | cons r2 rest ih =>
    rw [List.foldl_cons]
    exact ih _ (settledRecord_mono u inv svs r r2 h)

/-- After the reconciliation fold, every traversed record is settled. -/
theorem settledRecord_after_foldl (u : String → Nat)
    (inv : List (Nat × Terminal)) (recs : List ServerEntry)
    (svs : List (Nat × ServerEntry)) (r : ServerEntry) (hr : r ∈ recs) :
    settledRecord inv (recs.foldl (restoreRecord u inv) svs) r := by
  induction recs generalizing svs with
  | nil => cases hr
  | cons r2 rest ih =>
    rw [List.foldl_cons]
    rcases List.mem_cons.mp hr with h | h
    · subst h
      exact settledRecord_foldl_mono u inv rest _ r
        (settledRecord_self u inv svs r)
    · exact ih _ h

/-- The reconciliation fold is the identity when every traversed record is
settled. -/
theorem restore_foldl_of_settled (u : String → Nat)
    (inv : List (Nat × Terminal)) (recs : List ServerEntry)
    (svs : List (Nat × ServerEntry))
    (h : ∀ r ∈ recs, settledRecord inv svs r) :
    recs.foldl (restoreRecord u inv) svs = svs := by
  induction recs generalizing svs with
  | nil => rfl
  | cons r rest ih =>
    rw [List.foldl_cons, restoreRecord_of_settled u inv svs r
      (h r (List.mem_cons_self r rest))]
    exact ih _ (fun r2 hr2 => h r2 (List.mem_cons_of_mem r hr2))

/-- Claim C6: a persisted record whose pid has no live Jupyter terminal in
the inventory is silently dropped by reconciliation: the registry is
unchanged at that pid (no entry is produced for the record), no error is
raised (`restoreJupyterServers` is total), and the persisted store is not
rewritten (no retry). -/
theorem c6_dead_record_dropped (urlPort : String → Nat)
    (terminals : List Terminal) (w : IntegrationWorld) (r : ServerEntry)
    (hr : r ∈ w.memento)
    (hdead : alookup (buildTerminalsByPid terminals) r.serverUri.pid = none) :
    alookup (restoreJupyterServers urlPort terminals w).servers
        r.serverUri.pid
      = alookup w.servers r.serverUri.pid
    ∧ (restoreJupyterServers urlPort terminals w).memento = w.memento := by
  constructor
  · exact restore_foldl_lookup_of_dead urlPort _ w.memento w.servers _ hdead
  · rfl

/-- A persisted record whose backing process is gone (no matching live
terminal). -/
def sampleDeadRecord : ServerEntry :=
  { serverUri :=
      { pid := 42
        baseUrl := "http://localhost:8888/"
        token := "t"
        label := "Jupyter Notebook http://localhost:8888/"
        mappedRemoteNotebookDir := none }
    server := sampleServer
    disposables := [] }

/-- A live-terminal inventory whose only terminal is not a Jupyter one (but
does report pid 42). -/
def sampleTerminals : List Terminal :=
  [{ name := "bash", processId := some 42 }]

/-- A world whose persisted store holds only the dead record. -/
def sampleRestoreWorld : IntegrationWorld :=
  { servers := [], memento := [sampleDeadRecord], events := 0, warnings := [] }

/-- Witness for C6 at the concrete dead record. -/
theorem c6_dead_record_dropped_witness :
    alookup
        (restoreJupyterServers (fun _ => 8888) sampleTerminals
          sampleRestoreWorld).servers
        sampleDeadRecord.serverUri.pid
      = alookup sampleRestoreWorld.servers sampleDeadRecord.serverUri.pid
    ∧ (restoreJupyterServers (fun _ => 8888) sampleTerminals
        sampleRestoreWorld).memento = sampleRestoreWorld.memento :=
  c6_dead_record_dropped (fun _ => 8888) sampleTerminals sampleRestoreWorld
    sampleDeadRecord (by decide) (by decide)

/-- Claim C7: reconciliation is idempotent on the registry: a persisted
record whose pid is already registered is neither reactivated nor replaced,
and running `restoreJupyterServers` twice against the same live-terminal
inventory leaves exactly the registry contents of a single run. -/
theorem c7_restore_idempotent (urlPort : String → Nat)
    (terminals : List Terminal) (w : IntegrationWorld) :
    (∀ r ∈ w.memento, ahas w.servers r.serverUri.pid = true →
      alookup (restoreJupyterServers urlPort terminals w).servers
          r.serverUri.pid
        = alookup w.servers r.serverUri.pid)
    ∧ (restoreJupyterServers urlPort terminals
          (restoreJupyterServers urlPort terminals w)).servers
        = (restoreJupyterServers urlPort terminals w).servers := by
  constructor
  · intro r hr h
    exact restore_foldl_lookup_of_present urlPort _ w.memento w.servers _ h
  · simp only [restoreJupyterServers]
    apply restore_foldl_of_settled
    intro r hr
    exact settledRecord_after_foldl urlPort _ w.memento w.servers r hr

/-- A live Jupyter terminal matching `sampleDeadRecord`. -/
def sampleJupyterTerminal : Terminal :=
  { name := "Jupyter Notebook at 8888", processId := some 42 }

/-- Witness for C7: a world already holding pid 42 is untouched by
reconciliation of a record with pid 42, and a double restore equals a single
one. -/
theorem c7_restore_idempotent_witness :
    alookup
        (restoreJupyterServers (fun _ => 8888) [sampleJupyterTerminal]
          sampleWorld).servers
        sampleDeadRecord.serverUri.pid
      = alookup sampleWorld.servers sampleDeadRecord.serverUri.pid :=
  (c7_restore_idempotent (fun _ => 8888) [sampleJupyterTerminal]
      sampleWorld).1
    sampleDeadRecord (by decide) (by decide)

/-- A terminal name that the reconciliation inventory accepts
(part_000:62-65). -/
def isJupyterTerminalName (t : Terminal) : Prop :=
  jsStartsWith t.name "Jupyter Notebook at" = true
    ∨ jsStartsWith t.name "Jupyter Lab at" = true

/-- Indexing one terminal preserves the invariant that every indexed terminal
has a Jupyter name. -/
theorem considerTerminal_values (m : List (Nat × Terminal)) (t : Terminal)
    (hm : ∀ p t2, alookup m p = some t2 → isJupyterTerminalName t2) :
    ∀ p t2, alookup (considerTerminal m t) p = some t2 →
      isJupyterTerminalName t2 := by
  intro p t2 h
  unfold considerTerminal at h
  by_cases hn : ¬ jsStartsWith t.name "Jupyter Notebook at" = true
      ∧ ¬ jsStartsWith t.name "Jupyter Lab at" = true
  · rw [if_pos hn] at h
    exact hm p t2 h
  · rw [if_neg hn] at h
    have hjup : isJupyterTerminalName t := by
      unfold isJupyterTerminalName
      tauto
    cases hp : t.processId with
    | none =>
      rw [hp] at h
      exact hm p t2 h
    | some pid =>
      rw [hp] at h
      dsimp only at h
      by_cases hset : alookup m pid ≠ some t
      · rw [if_pos hset] at h
        by_cases hpp : p = pid
        · subst hpp
          rw [alookup_aset_self] at h
          cases h
          exact hjup
        · rw [alookup_aset_ne _ _ _ _ hpp] at h
          exact hm p t2 h
      · rw [if_neg hset] at h
        exact hm p t2 h

/-- Every terminal in the inventory map has a Jupyter name. -/
theorem buildTerminalsByPid_values (terminals : List Terminal) :
    ∀ p t, alookup (buildTerminalsByPid terminals) p = some t →
      isJupyterTerminalName t := by
  unfold buildTerminalsByPid
  suffices hgen : ∀ (m : List (Nat × Terminal)),
      (∀ p t2, alookup m p = some t2 → isJupyterTerminalName t2) →
      ∀ p t, alookup (terminals.foldl considerTerminal m) p = some t →
        isJupyterTerminalName t by
    exact hgen [] (by intro p t2 h; cases h)
  induction terminals with
  | nil => intro m hm; exact hm
  | cons t rest ih =>
    intro m hm
    rw [List.foldl_cons]
    exact ih _ (considerTerminal_values m t hm)

/-- A pid whose every reporting terminal lacks a Jupyter name is absent from
the inventory map. -/
theorem buildTerminalsByPid_none (terminals : List Terminal) (p : Nat)
    (h : ∀ t ∈ terminals, t.processId = some p → ¬ isJupyterTerminalName t) :
    alookup (buildTerminalsByPid terminals) p = none := by
  unfold buildTerminalsByPid
  suffices hgen : ∀ (m : List (Nat × Terminal)), alookup m p = none →
      alookup (terminals.foldl considerTerminal m) p = none by
    exact hgen [] rfl
  induction terminals with
  | nil => intro m hm; exact hm
  | cons t rest ih =>
    intro m hm
    rw [List.foldl_cons]
    refine ih (fun t2 ht2 => h t2 (List.mem_cons_of_mem t ht2)) _ ?_
    unfold considerTerminal
    by_cases hn : ¬ jsStartsWith t.name "Jupyter Notebook at" = true
        ∧ ¬ jsStartsWith t.name "Jupyter Lab at" = true
    · rw [if_pos hn]
      exact hm
    · rw [if_neg hn]
      have hjup : isJupyterTerminalName t := by
        unfold isJupyterTerminalName
        tauto
      cases hp : t.processId with
      | none => exact hm
      | some pid =>
        have hne : p ≠ pid := by
          intro he
          subst he
          exact h t (List.mem_cons_self t rest) hp hjup
        dsimp only
        by_cases hset : alookup m pid ≠ some t
        · rw [if_pos hset, alookup_aset_ne _ _ _ _ hne]
          exact hm
        · rw [if_neg hset]
          exact hm

/-- Claim C10: the live-process inventory of reconciliation contains only
terminals whose name starts with "Jupyter Notebook at" or "Jupyter Lab at";
a persisted record whose pid is reported only by terminals with other names
(so the OS process is alive) is treated as dead: reconciliation leaves the
registry unchanged at that pid. -/
theorem c10_inventory_only_jupyter_terminals :
    (∀ (terminals : List Terminal) (p : Nat) (t : Terminal),
        alookup (buildTerminalsByPid terminals) p = some t →
        jsStartsWith t.name "Jupyter Notebook at" = true
          ∨ jsStartsWith t.name "Jupyter Lab at" = true)
    ∧ (∀ (urlPort : String → Nat) (terminals : List Terminal)
          (w : IntegrationWorld) (r : ServerEntry), r ∈ w.memento →
        (∀ t ∈ terminals, t.processId = some r.serverUri.pid →
          ¬(jsStartsWith t.name "Jupyter Notebook at" = true
            ∨ jsStartsWith t.name "Jupyter Lab at" = true)) →
        alookup (restoreJupyterServers urlPort terminals w).servers
            r.serverUri.pid
          = alookup w.servers r.serverUri.pid) := by
  constructor
  · intro terminals p t h
    exact buildTerminalsByPid_values terminals p t h
  · intro urlPort terminals w r hr h
    exact restore_foldl_lookup_of_dead urlPort _ w.memento w.servers _
      (buildTerminalsByPid_none terminals _ h)

/-- Witness for C10: the lone Jupyter terminal is the only inventory entry,
and the record backed only by the non-Jupyter terminal `bash` is not
restored. -/
theorem c10_inventory_only_jupyter_terminals_witness :
    (jsStartsWith sampleJupyterTerminal.name "Jupyter Notebook at" = true
      ∨ jsStartsWith sampleJupyterTerminal.name "Jupyter Lab at" = true)
    ∧ alookup
          (restoreJupyterServers (fun _ => 8888) sampleTerminals
            sampleRestoreWorld).servers
          sampleDeadRecord.serverUri.pid
        = alookup sampleRestoreWorld.servers sampleDeadRecord.serverUri.pid :=
  ⟨c10_inventory_only_jupyter_terminals.1 [sampleJupyterTerminal] 42
      sampleJupyterTerminal (by decide),
   c10_inventory_only_jupyter_terminals.2 (fun _ => 8888) sampleTerminals
      sampleRestoreWorld sampleDeadRecord (by decide) (by decide)⟩

/-!
The second variant of the integration module (src/jupyterIntegration.ts,
lines 196-438 of the concatenated file): a `Map<number, ...>` registry keyed
by pid, an `onDidChangeHandles` emitter, and the `IJupyterUriProvider`
implementation with `getServerUri` and `removeHandle`.
-/

/-- JS `parseInt(s, 10)`: trim, optional sign, leading decimal digits;
`none` models `NaN`. -/
def jsParseInt (s : String) : Option Int :=
  if (jsTrim s).data.length = 0 then none
  else
    if ((jsTrim s).data.headD ' ') = '-' ∨ ((jsTrim s).data.headD ' ') = '+'
    then
      if ((jsTrim s).data.drop 1).takeWhile Char.isDigit = [] then none
      else
        some ((if ((jsTrim s).data.headD ' ') = '-' then (-1 : Int) else 1) *
          Int.ofNat ((((jsTrim s).data.drop 1).takeWhile Char.isDigit).foldl
            (fun a c => a * 10 + (c.toNat - 48)) 0))
    else
      if (jsTrim s).data.takeWhile Char.isDigit = [] then none
      else
        some (Int.ofNat (((jsTrim s).data.takeWhile Char.isDigit).foldl
          (fun a c => a * 10 + (c.toNat - 48)) 0))

/-- The `IJupyterServerUri` payload of the second variant
(jupyterIntegration.ts:303-309): no pid field, a display name, and the
authorization header left undefined. -/
structure ServerUri2 where
  baseUrl : String
  token : String
  displayName : String
  mappedRemoteNotebookDir : Option String
deriving DecidableEq

/-- A registry entry `{ serverUri, serverInfo }` of the second variant
(jupyterIntegration.ts:217-220).  The `dispose` closures wrap terminal
disposal, an external effect with no registry-observable state. -/
structure Entry2 where
  serverUri : ServerUri2
  serverInfo : JupyterServerRec
deriving DecidableEq

/-- The second variant's module state: the `Map<number, ...>` of servers and
the number of `onDidChangeHandles` firings.  Keys are `Int` because
`parseInt` can produce negative values that are simply absent from the
map. -/
structure HandleRegistry where
  servers : List (Int × Entry2)
  events : Nat
deriving DecidableEq

/-- `getServerUri` (jupyterIntegration.ts:334-341): throw "Invalid handle"
unless `parseInt(handle, 10)` is a key; otherwise return the stored
`serverUri` unchanged. -/
def getServerUri (r : HandleRegistry) (handle : String) :
    Except String ServerUri2 :=
  match jsParseInt handle with
  | none => Except.error "Invalid handle"
  | some k =>
      match alookup r.servers k with
      | none => Except.error "Invalid handle"
      | some entry => Except.ok entry.serverUri

/-- `removeHandle` (jupyterIntegration.ts:421-425): dispose if present,
delete, and fire the change event — unconditionally. -/
def removeHandle (r : HandleRegistry) (handle : String) : HandleRegistry :=
  match jsParseInt handle with
  | none => { r with events := r.events + 1 }
  | some k => { servers := aerase r.servers k, events := r.events + 1 }

/-- `shutdownJupyterServer` of the second variant
(jupyterIntegration.ts:224-236): no usable pid or no entry → return without
firing; otherwise dispose, delete and fire once.  The terminal's reported
pid is the input. -/
def shutdownJupyterServer (r : HandleRegistry) (pid : Option Nat) :
    HandleRegistry :=
  match pid with
  | none => r
  | some p =>
      match alookup r.servers (Int.ofNat p) with
      | none => r
      | some _ =>
          { servers := aerase r.servers (Int.ofNat p)
            events := r.events + 1 }

/-- Erasure removes the key. -/
theorem ahas_aerase_self {α β : Type} [DecidableEq α] (m : List (α × β))
    (k : α) : ahas (aerase m k) k = false := by
  induction m with
  | nil => rfl
  | cons e rest ih =>
    obtain ⟨k2, v2⟩ := e
    by_cases h : k2 = k
    · simpa [aerase, ahas, h] using ih
    · simpa [aerase, ahas, alookup, h] using ih

/-- Claim C8 is false as stated: `removeHandle` fires the change event even
when the handle is absent from the registry — here on an empty registry. -/
theorem c8_counterexample :
    (removeHandle { servers := [], events := 0 } "1").events = 1
    ∧ ahas ({ servers := [], events := 0 } : HandleRegistry).servers 1 = false := by
  constructor
  · rfl
  · rfl

/-- Claim C8 (amended): `shutdownJupyterServer` fires the change event
exactly once per transition of a pid from present to absent — an absent pid
(or an unavailable pid) fires nothing and leaves the registry untouched,
while a present pid is removed and fires exactly one event.  `removeHandle`,
by contrast, removes the entry but fires the change event on every
invocation, even when the handle is absent. -/
theorem c8_remove_fires_per_transition :
    (∀ (r : HandleRegistry) (handle : String),
        (removeHandle r handle).events = r.events + 1)
    ∧ (∀ (r : HandleRegistry) (p : Nat),
        ahas r.servers (Int.ofNat p) = false →
        shutdownJupyterServer r (some p) = r)
    ∧ (∀ (r : HandleRegistry), shutdownJupyterServer r none = r)
    ∧ (∀ (r : HandleRegistry) (p : Nat),
        ahas r.servers (Int.ofNat p) = true →
        (shutdownJupyterServer r (some p)).events = r.events + 1
        ∧ ahas (shutdownJupyterServer r (some p)).servers (Int.ofNat p)
            = false) := by
  refine ⟨?_, ?_, ?_, ?_⟩
  · intro r handle
    unfold removeHandle
    cases jsParseInt handle <;> rfl
  · intro r p h
    unfold shutdownJupyterServer
    dsimp only
    cases hl : alookup r.servers (Int.ofNat p) with
    | none => rfl
    | some e =>
      unfold ahas at h
      rw [hl] at h
      simp at h
  · intro r
    rfl
  · intro r p h
    unfold shutdownJupyterServer
    dsimp only
    cases hl : alookup r.servers (Int.ofNat p) with
    | none =>
      unfold ahas at h
      rw [hl] at h
      simp at h
    | some e =>
      exact ⟨rfl, ahas_aerase_self r.servers (Int.ofNat p)⟩

/-- A concrete registry entry of the second variant. -/
def sampleEntry2 : Entry2 :=
  { serverUri :=
      { baseUrl := "http://localhost:8888/"
        token := "t"
        displayName := "Jupyter Notebook http://localhost:8888/"
        mappedRemoteNotebookDir := none }
    serverInfo := sampleServer }

/-- A concrete registry of the second variant holding pid 42. -/
def sampleHandleRegistry : HandleRegistry :=
  { servers := [(42, sampleEntry2)], events := 0 }

/-- Witness for the amended C8 at concrete registries. -/
theorem c8_remove_fires_per_transition_witness :
    (removeHandle { servers := [], events := 0 } "abc").events = 0 + 1
    ∧ shutdownJupyterServer sampleHandleRegistry (some 7)
        = sampleHandleRegistry
    ∧ shutdownJupyterServer ({ servers := [], events := 3 } : HandleRegistry)
        none
        = { servers := [], events := 3 }
    ∧ ((shutdownJupyterServer sampleHandleRegistry (some 42)).events
          = sampleHandleRegistry.events + 1
      ∧ ahas (shutdownJupyterServer sampleHandleRegistry (some 42)).servers
          (Int.ofNat 42) = false) :=
  ⟨c8_remove_fires_per_transition.1 { servers := [], events := 0 } "abc",
   c8_remove_fires_per_transition.2.1 sampleHandleRegistry 7 (by decide),
   c8_remove_fires_per_transition.2.2.1 { servers := [], events := 3 },
   c8_remove_fires_per_transition.2.2.2 sampleHandleRegistry 42 (by decide)⟩

/-- Claim C9: `getServerUri` throws "Invalid handle" exactly when the handle,
parsed as an integer (`parseInt(handle, 10)`, `NaN` included), is not a key
of the in-memory registry; for a present handle it returns the stored
connection record unchanged. -/
theorem c9_getServerUri_invalid_iff (r : HandleRegistry) (handle : String) :
    (getServerUri r handle = Except.error "Invalid handle" ↔
      (jsParseInt handle).bind (alookup r.servers) = none)
    ∧ (∀ entry : Entry2,
        (jsParseInt handle).bind (alookup r.servers) = some entry →
        getServerUri r handle = Except.ok entry.serverUri) := by
  constructor
  · unfold getServerUri
    cases hk : jsParseInt handle with
    | none => simp
    | some k =>
      cases hl : alookup r.servers k with
      | none => simp [hl]
      | some e => simp [hl]
  · intro entry h
    unfold getServerUri
    cases hk : jsParseInt handle with
    | none =>
      rw [hk] at h
      cases h
    | some k =>
      rw [hk] at h
      simp only [Option.some_bind] at h
      dsimp only
      rw [h]

/-- Witness for C9: handle "42" resolves to the stored record in the
concrete registry. -/
theorem c9_getServerUri_invalid_iff_witness :
    getServerUri sampleHandleRegistry "42" =
      Except.ok sampleEntry2.serverUri :=
  (c9_getServerUri_invalid_iff sampleHandleRegistry "42").2 sampleEntry2
    (by decide)
